import Mathlib

/-!
Verification of the pandora backend's level-progression state machine and
quiz orchestration logic (src/routes/vault.py, src/routes/session.py,
src/llm.py) via a shallow embedding.  LLM outputs are exogenous string
parameters; the persisted user_progress table is modelled as one optional
row per user; the in-memory quiz store as an optional QuizSession.
-/

namespace Pandora

/-- Python substring helper: list-of-chars prefix test composed over all
suffixes, modelling Python's `pat in s`. -/
def charsContains (pat : List Char) : List Char → Bool
  | [] => pat.isEmpty
  | c :: rest => pat.isPrefixOf (c :: rest) || charsContains pat rest

/-- Python's `pat in s` substring containment on strings. -/
def strContains (s pat : String) : Bool :=
  charsContains pat.data s.data

/-- ASCII whitespace recognised by Python's str.strip(). -/
def isPySpace (c : Char) : Bool :=
  c == ' ' || c == '\t' || c == '\n' || c == '\r' || c == '\x0b' || c == '\x0c'

/-- Python str.strip() with no arguments (whitespace both ends). -/
def pyStrip (s : String) : String :=
  String.mk (((s.data.dropWhile isPySpace).reverse.dropWhile isPySpace).reverse)

/-- Python str.upper() (ASCII case mapping suffices for the VERDICT
markers). -/
def pyUpper (s : String) : String :=
  String.mk (s.data.map Char.toUpper)

/-- Left-to-right non-overlapping replacement, as Python str.replace: after
a match, scanning resumes past the matched segment.  Fuel-indexed so it
evaluates inside the kernel; the fuel is the input length, which bounds the
number of steps.  (A nonempty pattern is assumed, as in the source.) -/
def replLoop (pat rep : List Char) : Nat → List Char → List Char
  | _, [] => []
  | 0, s => s
  | fuel + 1, c :: rest =>
    if !pat.isEmpty && pat.isPrefixOf (c :: rest) then
      rep ++ replLoop pat rep fuel ((c :: rest).drop pat.length)
    else
      c :: replLoop pat rep fuel rest

/-- Python s.replace(pat, rep). -/
def pyReplace (s pat rep : String) : String :=
  String.mk (replLoop pat.data rep.data s.data.length s.data)

/-- Split a character list on the newline character. -/
def splitNl : List Char → List (List Char)
  | [] => [[]]
  | c :: rest =>
    match splitNl rest with
    | [] => [[c]]
    | h :: t => if c = '\n' then [] :: h :: t else (c :: h) :: t

/-- Python s.split("\n"). -/
def pySplitNl (s : String) : List String :=
  (splitNl s.data).map String.mk

/-- HTTP error as raised by the routes (FastAPI HTTPException). -/
structure HTTPError where
  status : Nat
  detail : String
deriving Repr, DecidableEq

/-- Spec name for the 400 raised by the gatekeeper on a level outside 1-5. -/
def InvalidLevelError : HTTPError := ⟨400, "Level must be 1-5"⟩

/-- Spec name for the 400 raised by submit_answer with no progress row. -/
def NoActiveSessionError : HTTPError :=
  ⟨400, "No active session. Start from /vault/gatekeeper first."⟩

/-- Spec name for the 400 raised by quiz_next with no active quiz. -/
def NoActiveQuizError : HTTPError := ⟨400, "No active quiz."⟩

/-- The 400 raised by quiz_answer with no active quiz (same taxonomy entry
as NoActiveQuizError, different detail string in the code). -/
def NoActiveQuizAnswerError : HTTPError :=
  ⟨400, "No active quiz. Call /quiz/start first."⟩

/-- Spec name for the 400 raised by quiz_next when the quiz is finished. -/
def QuizAlreadyCompleteError : HTTPError := ⟨400, "Quiz already complete."⟩

/-- Spec name for the 500 raised by quiz_start on an empty question list. -/
def GenerationFailureError : HTTPError :=
  ⟨500, "Failed to generate quiz questions."⟩

/-- Spec name for the 400 raised by update_session on an empty update set. -/
def NothingToUpdateError : HTTPError := ⟨400, "Nothing to update"⟩

/-- One user_progress row (all columns nullable; a freshly inserted row only
has the columns the insert supplied). -/
structure ProgressRow where
  topic : Option String := none
  current_level : Option Int := none
  diagnostic_passed : Option Bool := none
  diagnostic_attempts : Option Int := none
  hint_stage : Option Int := none
deriving Repr, DecidableEq

/-- A partial update dict for user_progress: only the `some` fields are
written. -/
structure ProgressUpdates where
  topic : Option String := none
  current_level : Option Int := none
  diagnostic_passed : Option Bool := none
  diagnostic_attempts : Option Int := none
  hint_stage : Option Int := none
deriving Repr, DecidableEq

/-- Apply a partial update to a row: fields present in the update overwrite,
the rest are untouched (supabase .update semantics). -/
def applyUpdates (r : ProgressRow) (u : ProgressUpdates) : ProgressRow where
  topic := match u.topic with | some v => some v | none => r.topic
  current_level := match u.current_level with | some v => some v | none => r.current_level
  diagnostic_passed := match u.diagnostic_passed with | some v => some v | none => r.diagnostic_passed
  diagnostic_attempts := match u.diagnostic_attempts with | some v => some v | none => r.diagnostic_attempts
  hint_stage := match u.hint_stage with | some v => some v | none => r.hint_stage

/-- The row resulting from `insert` of only the update's fields: every other
column stays null. -/
def emptyRow : ProgressRow := {}

/-- _save_progress from src/routes/vault.py: update the existing row with the
partial dict, or insert a fresh row carrying only those fields. -/
def save_progress (db : Option ProgressRow) (u : ProgressUpdates) : ProgressRow :=
  match db with
  | some r => applyUpdates r u
  | none => applyUpdates emptyRow u

/-- Response shape of src/llm.py's call_llm (AskResponse).  The mermaid block
extraction is a presentation detail (regex over the free-form LLM text) and is
kept as the raw extraction being out of the claims' scope: the field stays
None in this model. -/
structure AskResponse where
  content : String
  passed : Option Bool := none
  mermaid_code : Option String := none
  recommended_level : Option Int := none
deriving Repr, DecidableEq

/-- The VERDICT parsing inside call_llm for message_type check_answer:
case-insensitive search of VERDICT markers in the raw reply. -/
def parse_verdict (raw : String) : Option Bool :=
  let u := pyUpper raw
  if strContains u "VERDICT: PASS" then some true
  else if strContains u "VERDICT: FAIL" then some false
  else none

/-- call_llm from src/llm.py with the LLM's raw reply as an exogenous input:
verdict parsing for check_answer, recommended_level for reveal_answer. -/
def call_llm (message_type : String) (level : Int) (raw : String) : AskResponse where
  content := raw
  passed := if message_type = "check_answer" then parse_verdict raw else none
  mermaid_code := none
  recommended_level :=
    if message_type = "reveal_answer" then some (max 1 (level - 1)) else none

/-- gatekeeper from src/routes/vault.py (spec operation enterLevel).  `raw` is
the LLM's reply for the lesson (level 1) or generated question (level 2-5). -/
def gatekeeper (topic : String) (level : Int) (raw : String)
    (db : Option ProgressRow) :
    Except HTTPError (Option ProgressRow × AskResponse) :=
  if level < 1 ∨ 5 < level then
    .error ⟨400, "Level must be 1-5"⟩
  else if level = 1 then
    let response := call_llm "lesson" 1 raw
    let db' := save_progress db
      { topic := some topic, current_level := some 1,
        diagnostic_passed := some true, diagnostic_attempts := some 0,
        hint_stage := some 0 }
    .ok (some db', response)
  else
    let response := call_llm "generate_question" level raw
    let db' := save_progress db
      { topic := some topic, current_level := some level,
        diagnostic_passed := some false, diagnostic_attempts := some 0,
        hint_stage := some 0 }
    .ok (some db', response)

/-- submit_answer from src/routes/vault.py (spec operation submitAnswer).
`checkRaw` is the grader LLM's raw reply, `followRaw` the raw reply of the
follow-up call (lesson, hint or reveal). -/
def submit_answer (level : Int) (checkRaw followRaw : String)
    (db : Option ProgressRow) :
    Except HTTPError (Option ProgressRow × AskResponse) :=
  match db with
  | none => .error ⟨400, "No active session. Start from /vault/gatekeeper first."⟩
  | some state =>
    let attempts : Int := state.diagnostic_attempts.getD 0
    let check_result := call_llm "check_answer" level checkRaw
    if check_result.passed = some true then
      let db1 := save_progress (some state)
        { diagnostic_passed := some true,
          diagnostic_attempts := some (attempts + 1),
          hint_stage := some 0 }
      let lesson := call_llm "lesson" level followRaw
      .ok (some db1, { lesson with passed := some true })
    else
      let new_attempts := attempts + 1
      let db1 := save_progress (some state)
        { diagnostic_attempts := some new_attempts }
      if new_attempts = 1 then
        let db2 := save_progress (some db1) { hint_stage := some 1 }
        let hint := call_llm "hint_mermaid" level followRaw
        .ok (some db2, { hint with passed := some false })
      else if new_attempts = 2 then
        let db2 := save_progress (some db1) { hint_stage := some 2 }
        let hint := call_llm "hint_pseudocode" level followRaw
        .ok (some db2, { hint with passed := some false })
      else
        let drop_level := max 1 (level - 1)
        let db2 := save_progress (some db1)
          { diagnostic_passed := some false,
            current_level := some drop_level,
            hint_stage := some 0 }
        let reveal := call_llm "reveal_answer" level followRaw
        .ok (some db2,
          { reveal with passed := some false,
                        recommended_level := some drop_level })

/-- One entry of a quiz session's results list. -/
structure QuizResult where
  question_index : Int
  question_text : String
  user_answer : String
  passed : Bool
  feedback : String
deriving Repr, DecidableEq

/-- One user's in-memory quiz session (an entry of _quiz_store). -/
structure QuizSession where
  questions : List String
  current_index : Int
  results : List QuizResult
  topic : String
  level : Int
  language : String
  quiz_mode : String
deriving Repr, DecidableEq

/-- Response shape of quiz/start and quiz/next (NextQuestionResponse). -/
structure NextQuestionResponse where
  question_text : String
  question_index : Int
  total_questions : Nat
deriving Repr, DecidableEq

/-- Response shape of quiz/answer (QuizSubmitResponse); the optional fields
are only set once the quiz completes, matching the pydantic defaults. -/
structure QuizSubmitResponse where
  passed : Bool
  feedback : String
  quiz_complete : Bool
  quiz_mode : String := "popquiz"
  score : Option Nat := none
  total : Option Nat := none
  percent : Option Nat := none
  promoted : Option Bool := none
  next_level : Option Int := none
  weak_topics : Option (List String) := none
  summary : Option String := none
deriving Repr, DecidableEq

/-- Python's round applied to the exact value 100*score/total: round half to
even on the rational, matching round((score/total)*100) (the float rounding
of the quotient is ignored, as in the spec's formula). -/
def pyRound100 (score total : Nat) : Nat :=
  let num := 100 * score
  let q := num / total
  let r := num % total
  if 2 * r < total then q
  else if total < 2 * r then q + 1
  else if q % 2 = 0 then q else q + 1

/-- quiz_start from src/routes/vault.py.  The generated question list is an
exogenous input (it comes from the LLM via generate_quiz_questions); the
Python `req.quiz_mode or "popquiz"` treats both None and "" as absent. -/
def quiz_start (topic : String) (level : Int) (language : String)
    (quiz_mode : Option String) (questions : List String) :
    Except HTTPError (QuizSession × NextQuestionResponse) :=
  let mode := match quiz_mode with
    | none => "popquiz"
    | some m => if m = "" then "popquiz" else m
  match questions with
  | [] => .error ⟨500, "Failed to generate quiz questions."⟩
  | q0 :: _ =>
    .ok ({ questions := questions, current_index := 0, results := [],
           topic := topic, level := level, language := language,
           quiz_mode := mode },
         { question_text := q0, question_index := 0,
           total_questions := questions.length })

/-- The result record quiz_answer appends for the answered question. -/
def answeredResult (question_index : Int) (question_text user_answer : String)
    (passed : Bool) (feedback : String) : QuizResult :=
  { question_index := question_index, question_text := question_text,
    user_answer := user_answer, passed := passed, feedback := feedback }

/-- score = sum(1 for r in results if r passed). -/
def quizScore (results : List QuizResult) : Nat :=
  (results.filter (fun r => r.passed)).length

/-- promoted = (mode == "levelup") and (percent >= 70). -/
def quizPromoted (mode : String) (percent : Nat) : Bool :=
  (mode == "levelup") && decide (70 ≤ percent)

/-- next_level = min(5, level + 1) if promoted else level. -/
def quizNextLevel (promoted : Bool) (level : Int) : Int :=
  if promoted then min 5 (level + 1) else level

/-- quiz_answer from src/routes/vault.py.  `graded` is the exogenous
(passed, feedback) verdict of grade_quiz_answer and `summaryRaw` the
exogenous text of generate_quiz_summary.  Returns the new quiz store entry,
the new progress row and the response. -/
def quiz_answer (question_index : Int) (question_text user_answer : String)
    (graded : Bool × String) (summaryRaw : String)
    (store : Option QuizSession) (db : Option ProgressRow) :
    Except HTTPError (Option QuizSession × Option ProgressRow × QuizSubmitResponse) :=
  match store with
  | none => .error ⟨400, "No active quiz. Call /quiz/start first."⟩
  | some s =>
    let passed := graded.1
    let feedback := graded.2
    let results := s.results ++
      [answeredResult question_index question_text user_answer passed feedback]
    let current_index := question_index + 1
    let is_last : Bool := (s.questions.length : Int) ≤ current_index
    if is_last = false then
      .ok (some { s with results := results, current_index := current_index },
           db,
           { passed := passed, feedback := feedback, quiz_complete := false })
    else
      let score := quizScore results
      let total := results.length
      let percent := pyRound100 score total
      let mode := s.quiz_mode
      let promoted : Bool := quizPromoted mode percent
      let next_level : Int := quizNextLevel promoted s.level
      let weak_questions := (results.filter (fun r => !r.passed)).map
        (fun r => r.question_text)
      let db' :=
        if promoted ∧ next_level ≠ s.level then
          some (save_progress db
            { current_level := some next_level,
              diagnostic_passed := some true,
              diagnostic_attempts := some 0,
              hint_stage := some 0 })
        else db
      .ok (none, db',
        { passed := passed, feedback := feedback, quiz_complete := true,
          quiz_mode := mode, score := some score, total := some total,
          percent := some percent, promoted := some promoted,
          next_level := some next_level, weak_topics := some weak_questions,
          summary := some summaryRaw })

/-- Python-style list indexing (negative indices count from the end);
none models an uncaught IndexError. -/
def pyIndex (xs : List String) (i : Int) : Option String :=
  let j := if i < 0 then (xs.length : Int) + i else i
  if h : 0 ≤ j ∧ j.toNat < xs.length then some (xs.get ⟨j.toNat, h.2⟩) else none

/-- quiz_next from src/routes/vault.py (spec operation peekNextQuestion).
An out-of-range negative index would escape as an uncaught exception, which
FastAPI surfaces as a 500. -/
def quiz_next (store : Option QuizSession) :
    Except HTTPError NextQuestionResponse :=
  match store with
  | none => .error ⟨400, "No active quiz."⟩
  | some s =>
    if (s.questions.length : Int) ≤ s.current_index then
      .error ⟨400, "Quiz already complete."⟩
    else
      match pyIndex s.questions s.current_index with
      | some q =>
        .ok { question_text := q, question_index := s.current_index,
              total_questions := s.questions.length }
      | none => .error ⟨500, "Internal Server Error"⟩

/-- Response shape of the session routes (SessionData). -/
structure SessionData where
  topic : Option String := none
  current_level : Option Int := none
  diagnostic_attempts : Option Int := some 0
  diagnostic_passed : Option Bool := some false
  hint_stage : Option Int := some 0
deriving Repr, DecidableEq

/-- The SessionData built from a row with Python .get defaults. -/
def sessionDataOfRow (row : ProgressRow) : SessionData where
  topic := row.topic
  current_level := row.current_level
  diagnostic_attempts := some (row.diagnostic_attempts.getD 0)
  diagnostic_passed := some (row.diagnostic_passed.getD false)
  hint_stage := some (row.hint_stage.getD 0)

/-- The `if not updates` test of update_session: every optional field of the
request body is absent. -/
def updatesEmpty (u : ProgressUpdates) : Bool :=
  u.topic.isNone && u.current_level.isNone && u.diagnostic_passed.isNone &&
  u.diagnostic_attempts.isNone && u.hint_stage.isNone

/-- update_session from src/routes/session.py (spec operation
updateProgress).  The request body (SessionUpdateRequest) has the same
optional fields as a partial update dict.  The error is raised before any
datastore call, so the store is untouched in that case. -/
def update_session (body : ProgressUpdates) (db : Option ProgressRow) :
    Except HTTPError (Option ProgressRow × SessionData) :=
  if updatesEmpty body then
    .error ⟨400, "Nothing to update"⟩
  else
    let row := save_progress db body
    .ok (some row, sessionDataOfRow row)

/-- get_session from src/routes/session.py (spec operation getProgress). -/
def get_session (db : Option ProgressRow) : SessionData :=
  match db with
  | none => {}
  | some row => sessionDataOfRow row

/-- reset_session from src/routes/session.py (spec operation
resetProgress): deletes the user's row. -/
def reset_session (_db : Option ProgressRow) : Option ProgressRow := none

/-- One message of a chat transcript. -/
structure ChatMessage where
  role : String
  content : String
deriving Repr, DecidableEq

/-- The trigger logic of chat in src/routes/vault.py: given the transcript
and the LLM's raw reply, decide (trigger_quiz, trigger_levelup).  Sentinel
markers anywhere in the history suppress the corresponding trigger. -/
def chat_triggers (history : List ChatMessage) (raw : String) : Bool × Bool :=
  let quiz_done := history.any (fun m => strContains m.content "QUIZ_DONE")
  let levelup_done := history.any (fun m => strContains m.content "LEVELUP_DONE")
  let trigger_quiz := strContains raw "[POPQUIZ_TRIGGER]" && !quiz_done
  let trigger_levelup := strContains raw "[LEVELUP_TRIGGER]" && !levelup_done
  (trigger_quiz, trigger_levelup)

/-- Characters stripped from the start of each fallback line:
Python lstrip("-•0123456789.) "). -/
def markerChars : List Char :=
  ['-', '•', '0', '1', '2', '3', '4', '5', '6', '7', '8', '9', '.', ')', ' ']

/-- Strip leading list markers as in the fallback's l.lstrip(...). -/
def lstripMarkers (s : String) : String :=
  String.mk (s.data.dropWhile (fun c => markerChars.contains c))

/-- The markdown-fence stripping generate_quiz_questions applies to the raw
reply before attempting JSON parsing. -/
def fenceStrip (content : String) : String :=
  pyStrip (pyReplace (pyReplace (pyStrip content) "```json" "") "```" "")

/-- The per-line pipeline of the fallback: split on newlines, keep the lines
that are non-blank after stripping, strip whitespace then leading list
markers from each. -/
def fallback_lines (raw : String) : List String :=
  ((pySplitNl raw).filter (fun l => pyStrip l ≠ "")).map
    (fun l => lstripMarkers (pyStrip l))

/-- The heuristic fallback of generate_quiz_questions in src/llm.py: lines
longer than 10 characters, at most 8 of them. -/
def fallback_questions (raw : String) : List String :=
  ((fallback_lines raw).filter (fun l => 10 < l.length)).take 8

/-- generate_quiz_questions from src/llm.py with the LLM's reply as input.
`parsed` is the exogenous outcome of json.loads on the fence-stripped text:
some qs exactly when parsing succeeded and produced a list of strings. -/
def generate_quiz_questions (content : String)
    (parsed : Option (List String)) : List String :=
  match parsed with
  | some qs => qs
  | none => fallback_questions (fenceStrip content)

/-- Modelled from the spec words of the claim (not the source): the fallback
as the claim describes it, excluding exactly the lines SHORTER than 10
characters, i.e. keeping every line of length at least 10. -/
def fallback_questions_claimed (raw : String) : List String :=
  ((fallback_lines raw).filter (fun l => 10 ≤ l.length)).take 8

/-! Concrete fixtures used by witnesses and counterexamples. -/

/-- A fresh gatekeeper entry at level 3 as written by the gatekeeper route. -/
def freshRow3 : ProgressRow :=
  { topic := some "recursion", current_level := some 3,
    diagnostic_passed := some false, diagnostic_attempts := some 0,
    hint_stage := some 0 }

/-- The row submit_answer persists for a PASS verdict on freshRow3. -/
def rowAfterPass : ProgressRow :=
  { topic := some "recursion", current_level := some 3,
    diagnostic_passed := some true, diagnostic_attempts := some 1,
    hint_stage := some 0 }

/-- A one-question level-up exam session at level 5. -/
def levelFiveSession : QuizSession :=
  { questions := ["q1"], current_index := 0, results := [], topic := "t",
    level := 5, language := "Python", quiz_mode := "levelup" }

/-- A progress row at level 5 that a promotion upsert would overwrite. -/
def levelFiveRow : ProgressRow :=
  { topic := some "t", current_level := some 5,
    diagnostic_passed := some false, diagnostic_attempts := some 3,
    hint_stage := some 2 }

/-- The progress row after a submit_answer call, discarding the response
(the route only errors when no row exists, in which case the store is
unchanged). -/
def run_submit (level : Int) (checkRaw followRaw : String)
    (db : Option ProgressRow) : Option ProgressRow :=
  match submit_answer level checkRaw followRaw db with
  | .ok (db', _) => db'
  | .error _ => db

/-- The progress store after a gatekeeper call at level 3 on an empty store. -/
def gkDb : Option ProgressRow :=
  match gatekeeper "recursion" 3 "question" none with
  | .ok (db, _) => db
  | .error _ => none

/-- The progress store after four consecutive failing submit_answer calls
following the level-3 gatekeeper entry. -/
def afterFourFails : Option ProgressRow :=
  run_submit 3 "VERDICT: FAIL" "h"
    (run_submit 3 "VERDICT: FAIL" "h"
      (run_submit 3 "VERDICT: FAIL" "h"
        (run_submit 3 "VERDICT: FAIL" "h" gkDb)))

/-- A fresh three-question pop quiz session. -/
def threeQuestionSession : QuizSession :=
  { questions := ["q1", "q2", "q3"], current_index := 0, results := [],
    topic := "t", level := 2, language := "Python", quiz_mode := "popquiz" }

/-- A six-question level-up exam at level 3 with five questions already
answered (four passed, one failed), as in the spec's worked example. -/
def levelupExamSession : QuizSession :=
  { questions := ["q1", "q2", "q3", "q4", "q5", "q6"], current_index := 5,
    results :=
      [⟨0, "q1", "a1", true, "f"⟩, ⟨1, "q2", "a2", true, "f"⟩,
       ⟨2, "q3", "a3", true, "f"⟩, ⟨3, "q4", "a4", true, "f"⟩,
       ⟨4, "q5", "a5", false, "f"⟩],
    topic := "recursion", level := 3, language := "Python",
    quiz_mode := "levelup" }

/-- A one-question level-up exam session at level 4. -/
def levelFourSession : QuizSession :=
  { questions := ["q1"], current_index := 0, results := [], topic := "t",
    level := 4, language := "Python", quiz_mode := "levelup" }

/-- A transcript already carrying the pop-quiz sentinel marker. -/
def quizDoneHistory : List ChatMessage :=
  [{ role := "assistant", content := "Great! QUIZ_DONE" }]

/-- A raw LLM reply that is not valid JSON, exercising the fallback. -/
def rawFixture : String := "What is recursion in Python code?\n- short"

/-- Decidable equality for Except results, so theorems about route outcomes
can be settled by evaluation. -/
instance {ε α : Type} [DecidableEq ε] [DecidableEq α] : DecidableEq (Except ε α)
  | .ok x, .ok y =>
    if h : x = y then .isTrue (h ▸ rfl)
    else .isFalse (fun hh => h (Except.ok.inj hh))
  | .error x, .error y =>
    if h : x = y then .isTrue (h ▸ rfl)
    else .isFalse (fun hh => h (Except.error.inj hh))
  | .ok _, .error _ => .isFalse (fun hh => Except.noConfusion hh)
  | .error _, .ok _ => .isFalse (fun hh => Except.noConfusion hh)

/-! Helper lemmas shared by the verification theorems. -/

theorem call_llm_check (level : Int) (raw : String) :
    call_llm "check_answer" level raw =
      { content := raw, passed := parse_verdict raw } := rfl

theorem call_llm_lesson (level : Int) (raw : String) :
    call_llm "lesson" level raw = { content := raw } := rfl

theorem call_llm_hint_mermaid (level : Int) (raw : String) :
    call_llm "hint_mermaid" level raw = { content := raw } := rfl

theorem call_llm_hint_pseudocode (level : Int) (raw : String) :
    call_llm "hint_pseudocode" level raw = { content := raw } := rfl

theorem call_llm_reveal (level : Int) (raw : String) :
    call_llm "reveal_answer" level raw =
      { content := raw, recommended_level := some (max 1 (level - 1)) } := rfl

/-- C3 counterexample: a completed level-up exam at level 5 with a perfect
score reports promoted=true and nextLevel=5, but because nextLevel equals
the session's level the code performs no Progress upsert — the row keeps
diagnosticPassed=false, diagnosticAttempts=3, hintStage=2, contradicting
the claim that the upsert also happens when level is 5. -/
theorem C3_counterexample :
    quiz_answer 0 "q1" "a" (true, "fb") "done" (some levelFiveSession)
        (some levelFiveRow) =
      .ok (none, some levelFiveRow,
        { passed := true, feedback := "fb", quiz_complete := true,
          quiz_mode := "levelup", score := some 1, total := some 1,
          percent := some 100, promoted := some true, next_level := some 5,
          weak_topics := some [], summary := some "done" }) ∧
    levelFiveRow.diagnostic_passed = some false ∧
    levelFiveRow.diagnostic_attempts = some 3 ∧
    levelFiveRow.hint_stage = some 2 := by
  decide

/-- C4 counterexample: a submit_answer whose verdict is PASS on a fresh
level-3 entry persists diagnosticAttempts = 1, not 0 — the code writes
attempts+1, contradicting the claimed reset to 0. -/
theorem C4_counterexample :
    submit_answer 3 "VERDICT: PASS" "lesson" (some freshRow3) =
      .ok (some rowAfterPass, { content := "lesson", passed := some true }) ∧
    rowAfterPass.diagnostic_attempts ≠ some 0 := by
  decide

/-- C5 counterexample: a fourth failing submit_answer after the reveal
leaves a reachable persisted diagnosticAttempts of 4 > 3, and
update_session stores an arbitrary out-of-range value (7) unvalidated. -/
theorem C5_counterexample :
    afterFourFails = some
      { topic := some "recursion", current_level := some 2,
        diagnostic_passed := some false, diagnostic_attempts := some 4,
        hint_stage := some 0 } ∧
    update_session { diagnostic_attempts := some 7 } (some freshRow3) =
      .ok (some
        { topic := some "recursion", current_level := some 3,
          diagnostic_passed := some false, diagnostic_attempts := some 7,
          hint_stage := some 0 },
        { topic := some "recursion", current_level := some 3,
          diagnostic_attempts := some 7, diagnostic_passed := some false,
          hint_stage := some 0 }) := by
  decide

/-- C7 counterexample: on the non-JSON reply "abcdefghij" (a single line of
exactly 10 characters) the code's fallback excludes the line (it keeps only
lines longer than 10), yielding an empty list and a GenerationFailureError,
whereas the claimed filter (excluding only lines shorter than 10) would
keep it. -/
theorem C7_counterexample :
    generate_quiz_questions "abcdefghij" none = [] ∧
    fallback_questions_claimed (fenceStrip "abcdefghij") = ["abcdefghij"] ∧
    quiz_start "t" 3 "Python" (some "popquiz")
        (generate_quiz_questions "abcdefghij" none) =
      .error GenerationFailureError := by
  decide

/-- C8 counterexample: on an empty transcript, a collaborator reply carrying
both tags surfaces both trigger types in the same turn — the code computes
the two flags independently and never enforces mutual exclusion. -/
theorem C8_counterexample :
    chat_triggers [] "ok\n[POPQUIZ_TRIGGER]\n[LEVELUP_TRIGGER]" =
      (true, true) := by
  decide

/-- C1: from a fresh gatekeeper entry at level L>1 (attempts 0, hint stage
0), three consecutive failing submit_answer calls persist hint stages 1
then 2, and the third failure persists hintStage=0, diagnosticPassed=false
and currentLevel = max(1, L-1) while returning passed=false with
recommendedLevel = max(1, L-1); a passing submit_answer at any attempt
count persists diagnosticPassed=true and hintStage=0 and returns
passed=true. -/
theorem C1_gatekeeper_ladder (L : Int) (_hL : 1 < L) (row0 : ProgressRow)
    (hA : row0.diagnostic_attempts = some 0) (_hH : row0.hint_stage = some 0)
    (c1 f1 c2 f2 c3 f3 : String)
    (h1 : parse_verdict c1 = some false)
    (h2 : parse_verdict c2 = some false)
    (h3 : parse_verdict c3 = some false) :
    (∃ row1 row2 row3 r1 r2 r3,
      submit_answer L c1 f1 (some row0) = .ok (some row1, r1) ∧
      row1.hint_stage = some 1 ∧ r1.passed = some false ∧
      submit_answer L c2 f2 (some row1) = .ok (some row2, r2) ∧
      row2.hint_stage = some 2 ∧ r2.passed = some false ∧
      submit_answer L c3 f3 (some row2) = .ok (some row3, r3) ∧
      row3.hint_stage = some 0 ∧ row3.diagnostic_passed = some false ∧
      row3.current_level = some (max 1 (L - 1)) ∧
      r3.passed = some false ∧
      r3.recommended_level = some (max 1 (L - 1))) ∧
    (∀ (row : ProgressRow) (cp fp : String), parse_verdict cp = some true →
      ∃ row' r',
        submit_answer L cp fp (some row) = .ok (some row', r') ∧
        row'.diagnostic_passed = some true ∧ row'.hint_stage = some 0 ∧
        r'.passed = some true) := by
  constructor
  · refine ⟨{ row0 with diagnostic_attempts := some 1, hint_stage := some 1 }, { row0 with diagnostic_attempts := some 2, hint_stage := some 2 }, { row0 with diagnostic_attempts := some 3, diagnostic_passed := some false, current_level := some (max 1 (L - 1)), hint_stage := some 0 }, { content := f1, passed := some false }, { content := f2, passed := some false }, { content := f3, passed := some false, recommended_level := some (max 1 (L - 1)) }, ?_, rfl, rfl, ?_, rfl, rfl, ?_, rfl, rfl, rfl, rfl, rfl⟩
    · simp [submit_answer, call_llm, h1, hA, save_progress, applyUpdates]
    · simp [submit_answer, call_llm, h2, save_progress, applyUpdates]
    · simp [submit_answer, call_llm, h3, save_progress, applyUpdates]
  · intro row cp fp hp
    refine ⟨{ row with diagnostic_passed := some true, diagnostic_attempts := some (row.diagnostic_attempts.getD 0 + 1), hint_stage := some 0 }, { content := fp, passed := some true }, ?_, rfl, rfl, rfl⟩
    simp [submit_answer, call_llm, hp, save_progress, applyUpdates]

/-- C1 witness: the ladder and the pass behaviour at level 3 on the concrete
fresh row, with concrete grader verdict strings. -/
theorem C1_witness :
    ((1 : Int) < 3 ∧ freshRow3.diagnostic_attempts = some 0 ∧
      freshRow3.hint_stage = some 0 ∧
      parse_verdict "VERDICT: FAIL" = some false ∧
      parse_verdict "VERDICT: PASS" = some true) ∧
    (∃ row1 row2 row3 r1 r2 r3,
      submit_answer 3 "VERDICT: FAIL" "m" (some freshRow3) = .ok (some row1, r1) ∧
      row1.hint_stage = some 1 ∧ r1.passed = some false ∧
      submit_answer 3 "VERDICT: FAIL" "p" (some row1) = .ok (some row2, r2) ∧
      row2.hint_stage = some 2 ∧ r2.passed = some false ∧
      submit_answer 3 "VERDICT: FAIL" "r" (some row2) = .ok (some row3, r3) ∧
      row3.hint_stage = some 0 ∧ row3.diagnostic_passed = some false ∧
      row3.current_level = some (max 1 (3 - 1)) ∧
      r3.passed = some false ∧
      r3.recommended_level = some (max 1 (3 - 1))) ∧
    (∃ row' r',
      submit_answer 3 "VERDICT: PASS" "l" (some freshRow3) = .ok (some row', r') ∧
      row'.diagnostic_passed = some true ∧ row'.hint_stage = some 0 ∧
      r'.passed = some true) :=
  ⟨⟨by decide, by decide, by decide, by decide, by decide⟩,
    (C1_gatekeeper_ladder 3 (by decide) freshRow3 (by decide) (by decide)
      "VERDICT: FAIL" "m" "VERDICT: FAIL" "p" "VERDICT: FAIL" "r"
      (by decide) (by decide) (by decide)).1,
    (C1_gatekeeper_ladder 3 (by decide) freshRow3 (by decide) (by decide)
      "VERDICT: FAIL" "m" "VERDICT: FAIL" "p" "VERDICT: FAIL" "r"
      (by decide) (by decide) (by decide)).2
      freshRow3 "VERDICT: PASS" "l" (by decide)⟩

/-- C2: the completion response of quiz_answer carries score = number of
passed results, total = number of results, percent = round(100*score/total);
a levelup quiz with percent at least 70 is promoted to min(5, level+1), a
percent below 70 is never promoted and keeps the level, and a popquiz is
never promoted regardless of score. -/
theorem C2_quiz_completion_scoring
    (s : QuizSession) (db : Option ProgressRow) (qIdx : Int)
    (qT uA fb sm : String) (g : Bool)
    (hlast : (s.questions.length : Int) ≤ qIdx + 1) :
    ∃ db' resp,
      quiz_answer qIdx qT uA (g, fb) sm (some s) db = .ok (none, db', resp) ∧
      resp.score = some (quizScore (s.results ++ [answeredResult qIdx qT uA g fb])) ∧
      resp.total = some ((s.results ++ [answeredResult qIdx qT uA g fb]).length) ∧
      resp.percent = some (pyRound100 (quizScore (s.results ++ [answeredResult qIdx qT uA g fb])) ((s.results ++ [answeredResult qIdx qT uA g fb]).length)) ∧
      (s.quiz_mode = "levelup" →
        70 ≤ pyRound100 (quizScore (s.results ++ [answeredResult qIdx qT uA g fb])) ((s.results ++ [answeredResult qIdx qT uA g fb]).length) →
        resp.promoted = some true ∧ resp.next_level = some (min 5 (s.level + 1))) ∧
      (pyRound100 (quizScore (s.results ++ [answeredResult qIdx qT uA g fb])) ((s.results ++ [answeredResult qIdx qT uA g fb]).length) < 70 →
        resp.promoted = some false ∧ resp.next_level = some s.level) ∧
      (s.quiz_mode = "popquiz" →
        resp.promoted = some false ∧ resp.next_level = some s.level) := by
  simp only [quiz_answer, decide_eq_true hlast, Bool.true_eq_false, if_false]
  refine ⟨_, _, rfl, rfl, rfl, rfl, ?_, ?_, ?_⟩
  · intro hmode hpct
    rw [hmode]
    simp only [quizPromoted, quizNextLevel, decide_eq_true hpct]
    exact ⟨rfl, rfl⟩
  · intro hpct
    have hd := decide_eq_false (Nat.not_le.mpr hpct)
    simp only [quizPromoted, quizNextLevel, hd, Bool.and_false]
    exact ⟨trivial, rfl⟩
  · intro hmode
    rw [hmode]
    exact ⟨rfl, rfl⟩

/-- C2 witness: the spec's worked example — a six-question level-up exam at
level 3 with five passes yields percent 83 and promotion to level 4. -/
theorem C2_witness :
    ((levelupExamSession.questions.length : Int) ≤ 5 + 1) ∧
    (∃ db' resp,
      quiz_answer 5 "q6" "a6" (true, "f") "sum" (some levelupExamSession) none = .ok (none, db', resp) ∧
      resp.score = some (quizScore (levelupExamSession.results ++ [answeredResult 5 "q6" "a6" true "f"])) ∧
      resp.total = some ((levelupExamSession.results ++ [answeredResult 5 "q6" "a6" true "f"]).length) ∧
      resp.percent = some (pyRound100 (quizScore (levelupExamSession.results ++ [answeredResult 5 "q6" "a6" true "f"])) ((levelupExamSession.results ++ [answeredResult 5 "q6" "a6" true "f"]).length)) ∧
      (levelupExamSession.quiz_mode = "levelup" →
        70 ≤ pyRound100 (quizScore (levelupExamSession.results ++ [answeredResult 5 "q6" "a6" true "f"])) ((levelupExamSession.results ++ [answeredResult 5 "q6" "a6" true "f"]).length) →
        resp.promoted = some true ∧ resp.next_level = some (min 5 (levelupExamSession.level + 1))) ∧
      (pyRound100 (quizScore (levelupExamSession.results ++ [answeredResult 5 "q6" "a6" true "f"])) ((levelupExamSession.results ++ [answeredResult 5 "q6" "a6" true "f"]).length) < 70 →
        resp.promoted = some false ∧ resp.next_level = some levelupExamSession.level) ∧
      (levelupExamSession.quiz_mode = "popquiz" →
        resp.promoted = some false ∧ resp.next_level = some levelupExamSession.level)) ∧
    quizScore (levelupExamSession.results ++ [answeredResult 5 "q6" "a6" true "f"]) = 5 ∧
    (levelupExamSession.results ++ [answeredResult 5 "q6" "a6" true "f"]).length = 6 ∧
    pyRound100 5 6 = 83 ∧ min 5 (levelupExamSession.level + 1) = 4 :=
  ⟨by decide,
    C2_quiz_completion_scoring levelupExamSession none 5 "q6" "a6" "f" "sum" true (by decide),
    by decide, by decide, by decide, by decide⟩

/-- C3 amended: on quiz completion the Progress upsert (currentLevel :=
nextLevel, diagnosticPassed := true, diagnosticAttempts := 0, hintStage :=
0) is performed exactly when the outcome is promoted AND nextLevel differs
from the session's level; when the outcome is not promoted, or nextLevel
equals the level (in particular a promoted level-5 exam, where nextLevel =
min(5, 5+1) = 5), the Progress store is left untouched. -/
theorem C3_amended_promotion_upsert
    (s : QuizSession) (db : Option ProgressRow) (qIdx : Int)
    (qT uA fb sm : String) (g : Bool)
    (hlast : (s.questions.length : Int) ≤ qIdx + 1) :
    ∃ db' resp,
      quiz_answer qIdx qT uA (g, fb) sm (some s) db = .ok (none, db', resp) ∧
      (resp.promoted = some true → resp.next_level ≠ some s.level →
        db' = some (save_progress db
          { current_level := some (min 5 (s.level + 1)),
            diagnostic_passed := some true, diagnostic_attempts := some 0,
            hint_stage := some 0 })) ∧
      ((resp.promoted = some false ∨ resp.next_level = some s.level) →
        db' = db) := by
  simp only [quiz_answer, decide_eq_true hlast, Bool.true_eq_false, if_false]
  refine ⟨_, _, rfl, ?_, ?_⟩
  · intro hp hnl
    dsimp only at hp hnl
    have hp' := Option.some.inj hp
    have hnl' : quizNextLevel (quizPromoted s.quiz_mode (pyRound100 (quizScore (s.results ++ [answeredResult qIdx qT uA g fb])) ((s.results ++ [answeredResult qIdx qT uA g fb]).length))) s.level ≠ s.level :=
      fun h => hnl (congrArg some h)
    rw [if_pos ⟨hp', hnl'⟩, hp']
    rfl
  · intro h
    dsimp only at h
    split_ifs with hc
    · rcases h with hp | hnl
      · rw [hc.1] at hp
        exact absurd (Option.some.inj hp) (fun hh => Bool.noConfusion hh)
      · exact absurd (Option.some.inj hnl) hc.2
    · rfl

/-- C3 witness: a promoted one-question level-up exam at level 4 (nextLevel
5 differs from the level, so the upsert clause applies). -/
theorem C3_witness :
    ((levelFourSession.questions.length : Int) ≤ 0 + 1) ∧
    (∃ db' resp,
      quiz_answer 0 "q1" "a" (true, "fb") "sum" (some levelFourSession) none = .ok (none, db', resp) ∧
      (resp.promoted = some true → resp.next_level ≠ some levelFourSession.level →
        db' = some (save_progress none
          { current_level := some (min 5 (levelFourSession.level + 1)),
            diagnostic_passed := some true, diagnostic_attempts := some 0,
            hint_stage := some 0 })) ∧
      ((resp.promoted = some false ∨ resp.next_level = some levelFourSession.level) →
        db' = none)) :=
  ⟨by decide,
    C3_amended_promotion_upsert levelFourSession none 0 "q1" "a" "fb" "sum" true (by decide)⟩

/-- C4 amended: a submitAnswer whose verdict is PASS persists
diagnosticAttempts = attempts + 1 (an increment, not a reset to 0),
together with diagnosticPassed = true and hintStage = 0; the reset of
diagnosticAttempts to 0 happens when a new gatekeeper question is issued
(every enterLevel call writes diagnosticAttempts = 0). -/
theorem C4_amended_pass_increments
    (level : Int) (checkRaw followRaw : String) (row : ProgressRow)
    (hp : parse_verdict checkRaw = some true) :
    (∃ resp, submit_answer level checkRaw followRaw (some row) =
      .ok (some { row with diagnostic_passed := some true, diagnostic_attempts := some (row.diagnostic_attempts.getD 0 + 1), hint_stage := some 0 }, resp) ∧
      resp.passed = some true) ∧
    (∀ (topic raw : String) (lvl : Int) (db : Option ProgressRow),
      1 ≤ lvl → lvl ≤ 5 →
      ∃ row' resp', gatekeeper topic lvl raw db = .ok (some row', resp') ∧
        row'.diagnostic_attempts = some 0) := by
  constructor
  · refine ⟨{ content := followRaw, passed := some true }, ?_, rfl⟩
    simp [submit_answer, call_llm, hp, save_progress, applyUpdates]
  · intro topic raw lvl db h1 h5
    have hout : ¬(lvl < 1 ∨ 5 < lvl) := by omega
    rcases db with _ | r <;> by_cases h : lvl = 1 <;>
      simp [gatekeeper, hout, h, save_progress, applyUpdates]

/-- C4 witness: the incremented attempts on a concrete PASS at level 3, and
the attempts reset by a concrete gatekeeper call at level 2. -/
theorem C4_witness :
    parse_verdict "VERDICT: PASS" = some true ∧
    (∃ resp, submit_answer 3 "VERDICT: PASS" "les" (some freshRow3) =
      .ok (some { freshRow3 with diagnostic_passed := some true, diagnostic_attempts := some (freshRow3.diagnostic_attempts.getD 0 + 1), hint_stage := some 0 }, resp) ∧
      resp.passed = some true) ∧
    (∃ row' resp', gatekeeper "hashing" 2 "q" (some rowAfterPass) = .ok (some row', resp') ∧
      row'.diagnostic_attempts = some 0) :=
  ⟨by decide,
    (C4_amended_pass_increments 3 "VERDICT: PASS" "les" freshRow3 (by decide)).1,
    (C4_amended_pass_increments 3 "VERDICT: PASS" "les" freshRow3 (by decide)).2
      "hashing" "q" 2 (some rowAfterPass) (by decide) (by decide)⟩

/-- C5 amended: diagnosticAttempts is not capped at 3 by the code.  Every
submit_answer call on an existing row (whatever the verdict) persists
attempts+1, so from a fresh gatekeeper entry the field equals the number of
submit calls and stays in [0,3] only for the first three; a fourth call
after the reveal stores 4 (see the counterexample).  update_session stores
any supplied integer without bounds validation. -/
theorem C5_amended_attempts_unbounded :
    (∀ (level : Int) (checkRaw followRaw : String) (row : ProgressRow),
      ∃ row' resp,
        submit_answer level checkRaw followRaw (some row) = .ok (some row', resp) ∧
        row'.diagnostic_attempts = some (row.diagnostic_attempts.getD 0 + 1)) ∧
    (∀ (n : Int) (row : ProgressRow),
      ∃ row' sd,
        update_session { diagnostic_attempts := some n } (some row) = .ok (some row', sd) ∧
        row'.diagnostic_attempts = some n) := by
  constructor
  · intro level c f row
    by_cases hp : (call_llm "check_answer" level c).passed = some true
    · refine ⟨{ row with diagnostic_passed := some true, diagnostic_attempts := some (row.diagnostic_attempts.getD 0 + 1), hint_stage := some 0 }, { content := f, passed := some true }, ?_, rfl⟩
      simp [submit_answer, hp, call_llm_lesson, save_progress, applyUpdates]
    · by_cases h1 : row.diagnostic_attempts.getD 0 + 1 = 1
      · refine ⟨{ row with diagnostic_attempts := some (row.diagnostic_attempts.getD 0 + 1), hint_stage := some 1 }, { content := f, passed := some false }, ?_, rfl⟩
        simp [submit_answer, hp, h1, call_llm_hint_mermaid, save_progress, applyUpdates]
      · by_cases h2 : row.diagnostic_attempts.getD 0 + 1 = 2
        · refine ⟨{ row with diagnostic_attempts := some (row.diagnostic_attempts.getD 0 + 1), hint_stage := some 2 }, { content := f, passed := some false }, ?_, rfl⟩
          simp [submit_answer, hp, h1, h2, call_llm_hint_pseudocode, save_progress, applyUpdates]
        · refine ⟨{ row with diagnostic_passed := some false, current_level := some (max 1 (level - 1)), diagnostic_attempts := some (row.diagnostic_attempts.getD 0 + 1), hint_stage := some 0 }, { content := f, passed := some false, recommended_level := some (max 1 (level - 1)) }, ?_, rfl⟩
          simp [submit_answer, hp, h1, h2, call_llm_reveal, save_progress, applyUpdates]
  · intro n row
    refine ⟨{ row with diagnostic_attempts := some n },
      sessionDataOfRow { row with diagnostic_attempts := some n }, ?_, rfl⟩
    simp [update_session, updatesEmpty, save_progress, applyUpdates]

/-- C6: quiz_answer trusts the caller-supplied questionIndex — the stored
currentIndex becomes questionIndex + 1 with no validation, the quiz
completes exactly when questionIndex + 1 reaches the question count, and
the final score, total and percent are computed from the results list
alone; concretely, a fresh three-question quiz is completed by one call
with questionIndex = 5, reporting total = 1. -/
theorem C6_unvalidated_index
    (s : QuizSession) (db : Option ProgressRow) (qIdx : Int)
    (qT uA fb sm : String) (g : Bool) :
    (qIdx + 1 < (s.questions.length : Int) →
      quiz_answer qIdx qT uA (g, fb) sm (some s) db =
        .ok (some { s with results := s.results ++ [answeredResult qIdx qT uA g fb], current_index := qIdx + 1 }, db,
          { passed := g, feedback := fb, quiz_complete := false })) ∧
    ((s.questions.length : Int) ≤ qIdx + 1 →
      ∃ db' resp,
        quiz_answer qIdx qT uA (g, fb) sm (some s) db = .ok (none, db', resp) ∧
        resp.quiz_complete = true ∧
        resp.total = some ((s.results ++ [answeredResult qIdx qT uA g fb]).length) ∧
        resp.score = some (quizScore (s.results ++ [answeredResult qIdx qT uA g fb])) ∧
        resp.percent = some (pyRound100 (quizScore (s.results ++ [answeredResult qIdx qT uA g fb])) ((s.results ++ [answeredResult qIdx qT uA g fb]).length))) ∧
    (∃ resp,
      quiz_answer 5 "q" "a" (true, "fb") "sum" (some threeQuestionSession) none = .ok (none, none, resp) ∧
      resp.quiz_complete = true ∧ resp.total = some 1 ∧
      threeQuestionSession.questions.length = 3) := by
  refine ⟨?_, ?_, ?_⟩
  · intro hlt
    have hb := decide_eq_false (not_le.mpr hlt)
    simp [quiz_answer, hb]
  · intro hlast
    simp only [quiz_answer, decide_eq_true hlast, Bool.true_eq_false, if_false]
    exact ⟨_, _, rfl, rfl, rfl, rfl, rfl⟩
  · exact ⟨_, rfl, rfl, rfl, rfl⟩

/-- C6 witness: both branches at concrete inputs — a mid-quiz answer storing
currentIndex 1, and a completing answer on a one-question session. -/
theorem C6_witness :
    ((0 : Int) + 1 < (threeQuestionSession.questions.length : Int) ∧
      quiz_answer 0 "q1" "a1" (true, "fb") "sum" (some threeQuestionSession) none =
        .ok (some { threeQuestionSession with results := threeQuestionSession.results ++ [answeredResult 0 "q1" "a1" true "fb"], current_index := 0 + 1 }, none,
          { passed := true, feedback := "fb", quiz_complete := false })) ∧
    ((levelFiveSession.questions.length : Int) ≤ 0 + 1 ∧
      ∃ db' resp,
        quiz_answer 0 "q1" "a1" (true, "fb") "sum" (some levelFiveSession) none = .ok (none, db', resp) ∧
        resp.quiz_complete = true ∧
        resp.total = some ((levelFiveSession.results ++ [answeredResult 0 "q1" "a1" true "fb"]).length) ∧
        resp.score = some (quizScore (levelFiveSession.results ++ [answeredResult 0 "q1" "a1" true "fb"])) ∧
        resp.percent = some (pyRound100 (quizScore (levelFiveSession.results ++ [answeredResult 0 "q1" "a1" true "fb"])) ((levelFiveSession.results ++ [answeredResult 0 "q1" "a1" true "fb"]).length))) :=
  ⟨⟨by decide,
      (C6_unvalidated_index threeQuestionSession none 0 "q1" "a1" "fb" "sum" true).1 (by decide)⟩,
    ⟨by decide,
      (C6_unvalidated_index levelFiveSession none 0 "q1" "a1" "fb" "sum" true).2.1 (by decide)⟩⟩

/-- C7 amended: when JSON parsing of the reply fails, the question list is
the heuristic fallback — the stripped non-blank lines of the fence-stripped
raw text, keeping exactly the lines LONGER than 10 characters (so a line of
exactly 10 characters is also excluded), capped at 8; quiz_start fails with
GenerationFailureError exactly when this list is empty. -/
theorem C7_amended_fallback (topic : String) (level : Int) (language : String)
    (mode : Option String) (raw : String) :
    (∀ q ∈ generate_quiz_questions raw none,
      q ∈ fallback_lines (fenceStrip raw) ∧ 10 < q.length) ∧
    ((generate_quiz_questions raw none).length ≤ 8) ∧
    (∀ l ∈ fallback_lines (fenceStrip raw), l.length ≤ 10 →
      l ∉ generate_quiz_questions raw none) ∧
    (quiz_start topic level language mode (generate_quiz_questions raw none) =
        .error GenerationFailureError ↔
      generate_quiz_questions raw none = []) := by
  refine ⟨?_, ?_, ?_, ?_⟩
  · intro q hq
    simp only [generate_quiz_questions, fallback_questions] at hq
    have h2 := List.mem_filter.mp (List.take_subset 8 _ hq)
    exact ⟨h2.1, by simpa using h2.2⟩
  · simp only [generate_quiz_questions, fallback_questions]
    exact List.length_take_le 8 _
  · intro l hl hlen hmem
    simp only [generate_quiz_questions, fallback_questions] at hmem
    have h2 := List.mem_filter.mp (List.take_subset 8 _ hmem)
    have h3 : 10 < l.length := by simpa using h2.2
    omega
  · constructor
    · intro h
      cases hq : generate_quiz_questions raw none with
      | nil => rfl
      | cons q0 rest =>
        rw [hq] at h
        simp [quiz_start] at h
    · intro h
      rw [h]
      rfl

/-- C7 witness: the fallback on a concrete non-JSON reply keeps the long
question line, drops the short "- short" line, and stays within the cap. -/
theorem C7_witness :
    ("What is recursion in Python code?" ∈ generate_quiz_questions rawFixture none ∧
      "What is recursion in Python code?" ∈ fallback_lines (fenceStrip rawFixture) ∧
      10 < ("What is recursion in Python code?" : String).length) ∧
    (generate_quiz_questions rawFixture none).length ≤ 8 ∧
    ("short" ∈ fallback_lines (fenceStrip rawFixture) ∧
      ("short" : String).length ≤ 10 ∧
      "short" ∉ generate_quiz_questions rawFixture none) :=
  ⟨⟨by decide,
      ((C7_amended_fallback "t" 3 "Python" none rawFixture).1 _ (by decide)).1,
      ((C7_amended_fallback "t" 3 "Python" none rawFixture).1 _ (by decide)).2⟩,
    (C7_amended_fallback "t" 3 "Python" none rawFixture).2.1,
    ⟨by decide, by decide,
      (C7_amended_fallback "t" 3 "Python" none rawFixture).2.2.1 "short"
        (by decide) (by decide)⟩⟩

/-- C8 amended: a trigger type whose sentinel marker (QUIZ_DONE for the pop
quiz, LEVELUP_DONE for the level-up exam) appears anywhere in the
transcript is suppressed regardless of the collaborator's reply, and a
trigger is surfaced only if its tag appears in the reply; mutual exclusion
of the two triggers is only requested of the collaborator in the prompt and
is NOT enforced by the code (see the counterexample, where a reply carrying
both tags surfaces both). -/
theorem C8_amended_sentinel_suppression (history : List ChatMessage) (raw : String) :
    ((∃ m ∈ history, strContains m.content "QUIZ_DONE" = true) →
      (chat_triggers history raw).1 = false) ∧
    ((∃ m ∈ history, strContains m.content "LEVELUP_DONE" = true) →
      (chat_triggers history raw).2 = false) ∧
    ((chat_triggers history raw).1 = true →
      strContains raw "[POPQUIZ_TRIGGER]" = true) ∧
    ((chat_triggers history raw).2 = true →
      strContains raw "[LEVELUP_TRIGGER]" = true) := by
  refine ⟨?_, ?_, ?_, ?_⟩
  · rintro ⟨m, hm, hc⟩
    have ha : history.any (fun m => strContains m.content "QUIZ_DONE") = true :=
      List.any_eq_true.mpr ⟨m, hm, hc⟩
    simp [chat_triggers, ha]
  · rintro ⟨m, hm, hc⟩
    have ha : history.any (fun m => strContains m.content "LEVELUP_DONE") = true :=
      List.any_eq_true.mpr ⟨m, hm, hc⟩
    simp [chat_triggers, ha]
  · intro h
    simp only [chat_triggers, Bool.and_eq_true] at h
    exact h.1
  · intro h
    simp only [chat_triggers, Bool.and_eq_true] at h
    exact h.1

/-- C8 witness: suppression by each sentinel on concrete transcripts, and
the tag-presence direction on concrete replies. -/
theorem C8_witness :
    (chat_triggers quizDoneHistory "a [POPQUIZ_TRIGGER]").1 = false ∧
    (chat_triggers [{ role := "assistant", content := "LEVELUP_DONE" }] "a [LEVELUP_TRIGGER]").2 = false ∧
    strContains "a [POPQUIZ_TRIGGER]" "[POPQUIZ_TRIGGER]" = true ∧
    strContains "a [LEVELUP_TRIGGER]" "[LEVELUP_TRIGGER]" = true :=
  ⟨(C8_amended_sentinel_suppression quizDoneHistory "a [POPQUIZ_TRIGGER]").1
      ⟨{ role := "assistant", content := "Great! QUIZ_DONE" }, by decide, by decide⟩,
    (C8_amended_sentinel_suppression [{ role := "assistant", content := "LEVELUP_DONE" }] "a [LEVELUP_TRIGGER]").2.1
      ⟨{ role := "assistant", content := "LEVELUP_DONE" }, by decide, by decide⟩,
    (C8_amended_sentinel_suppression [] "a [POPQUIZ_TRIGGER]").2.2.1 (by decide),
    (C8_amended_sentinel_suppression [] "a [LEVELUP_TRIGGER]").2.2.2 (by decide)⟩

/-- C9: the answer that completes a quiz removes the QuizSession
unconditionally (the store entry becomes absent in either mode, promoted or
not), and a subsequent quiz_next fails with NoActiveQuizError. -/
theorem C9_quiz_consumed_once
    (s : QuizSession) (db : Option ProgressRow) (qIdx : Int)
    (qT uA fb sm : String) (g : Bool)
    (hlast : (s.questions.length : Int) ≤ qIdx + 1) :
    (∃ db' resp,
      quiz_answer qIdx qT uA (g, fb) sm (some s) db = .ok (none, db', resp) ∧
      resp.quiz_complete = true) ∧
    quiz_next none = .error NoActiveQuizError := by
  refine ⟨?_, rfl⟩
  simp only [quiz_answer, decide_eq_true hlast, Bool.true_eq_false, if_false]
  exact ⟨_, _, rfl, rfl⟩

/-- C9 witness: a concrete completing answer (with a failing grade, on a
popquiz) consumes the session; quiz_next then errors. -/
theorem C9_witness :
    ((threeQuestionSession.questions.length : Int) ≤ 9 + 1) ∧
    ((∃ db' resp,
      quiz_answer 9 "q" "a" (false, "fb") "sum" (some threeQuestionSession) none = .ok (none, db', resp) ∧
      resp.quiz_complete = true) ∧
    quiz_next none = .error NoActiveQuizError) :=
  ⟨by decide,
    C9_quiz_consumed_once threeQuestionSession none 9 "q" "a" "fb" "sum" false (by decide)⟩

/-- C10: update_session writes exactly the present (non-absent) fields of
the partial update, leaving every other field of the existing row
unchanged; an empty update set fails with NothingToUpdateError, the error
being raised before any datastore call (no write happens). -/
theorem C10_partial_update (body : ProgressUpdates) (r : ProgressRow)
    (db : Option ProgressRow) :
    (updatesEmpty body = true →
      update_session body db = .error NothingToUpdateError) ∧
    (updatesEmpty body = false →
      ∃ r' sd, update_session body (some r) = .ok (some r', sd) ∧
        (body.topic = none → r'.topic = r.topic) ∧
        (∀ v, body.topic = some v → r'.topic = some v) ∧
        (body.current_level = none → r'.current_level = r.current_level) ∧
        (∀ v, body.current_level = some v → r'.current_level = some v) ∧
        (body.diagnostic_passed = none → r'.diagnostic_passed = r.diagnostic_passed) ∧
        (∀ v, body.diagnostic_passed = some v → r'.diagnostic_passed = some v) ∧
        (body.diagnostic_attempts = none → r'.diagnostic_attempts = r.diagnostic_attempts) ∧
        (∀ v, body.diagnostic_attempts = some v → r'.diagnostic_attempts = some v) ∧
        (body.hint_stage = none → r'.hint_stage = r.hint_stage) ∧
        (∀ v, body.hint_stage = some v → r'.hint_stage = some v)) := by
  constructor
  · intro h
    simp [update_session, h, NothingToUpdateError]
  · intro h
    refine ⟨applyUpdates r body, sessionDataOfRow (applyUpdates r body), ?_, ?_, ?_, ?_, ?_, ?_, ?_, ?_, ?_, ?_, ?_⟩
    · simp [update_session, h, save_progress]
    · intro hv; simp [applyUpdates, hv]
    · intro v hv; simp [applyUpdates, hv]
    · intro hv; simp [applyUpdates, hv]
    · intro v hv; simp [applyUpdates, hv]
    · intro hv; simp [applyUpdates, hv]
    · intro v hv; simp [applyUpdates, hv]
    · intro hv; simp [applyUpdates, hv]
    · intro v hv; simp [applyUpdates, hv]
    · intro hv; simp [applyUpdates, hv]
    · intro v hv; simp [applyUpdates, hv]

/-- C10 witness: the empty update errors on a concrete store; a topic-only
update on the concrete fresh row writes topic and leaves the other fields
unchanged. -/
theorem C10_witness :
    (updatesEmpty {} = true ∧
      update_session {} (some freshRow3) = .error NothingToUpdateError) ∧
    (updatesEmpty { topic := some "graphs" } = false ∧
      ∃ r' sd,
        update_session { topic := some "graphs" } (some freshRow3) = .ok (some r', sd) ∧
        (({ topic := some "graphs" } : ProgressUpdates).topic = none → r'.topic = freshRow3.topic) ∧
        (∀ v, ({ topic := some "graphs" } : ProgressUpdates).topic = some v → r'.topic = some v) ∧
        (({ topic := some "graphs" } : ProgressUpdates).current_level = none → r'.current_level = freshRow3.current_level) ∧
        (∀ v, ({ topic := some "graphs" } : ProgressUpdates).current_level = some v → r'.current_level = some v) ∧
        (({ topic := some "graphs" } : ProgressUpdates).diagnostic_passed = none → r'.diagnostic_passed = freshRow3.diagnostic_passed) ∧
        (∀ v, ({ topic := some "graphs" } : ProgressUpdates).diagnostic_passed = some v → r'.diagnostic_passed = some v) ∧
        (({ topic := some "graphs" } : ProgressUpdates).diagnostic_attempts = none → r'.diagnostic_attempts = freshRow3.diagnostic_attempts) ∧
        (∀ v, ({ topic := some "graphs" } : ProgressUpdates).diagnostic_attempts = some v → r'.diagnostic_attempts = some v) ∧
        (({ topic := some "graphs" } : ProgressUpdates).hint_stage = none → r'.hint_stage = freshRow3.hint_stage) ∧
        (∀ v, ({ topic := some "graphs" } : ProgressUpdates).hint_stage = some v → r'.hint_stage = some v)) :=
  ⟨⟨by decide, (C10_partial_update {} freshRow3 (some freshRow3)).1 (by decide)⟩,
    ⟨by decide, (C10_partial_update { topic := some "graphs" } freshRow3 (some freshRow3)).2 (by decide)⟩⟩

end Pandora
